import Mathlib

/-!
Shallow embedding of the odom-sim core (src/src/static/simulation/) :
geometry (vectors, 2x2/3x3 matrices, affine transformations), transformable
shapes, the scene-graph `Component`, the kinematic integrator
`calculate_next_odometry`, and the `Simulation` control state.

Python floats are modelled as real numbers.  A Python operation that can
raise `ZeroDivisionError` or `StopIteration` is modelled with `Option` /
`Except` where a claim depends on the failure; the divisions inside matrix
inverses are modelled with Lean's total real division and are only ever
evaluated at inputs where the source would not raise.
-/

/-- Embedding of `geometry.Vector2d` (fields `x`, `y`). -/
structure Vector2d where
  x : ℝ
  y : ℝ

/-- Embedding of `geometry.Vector3d` (fields `x`, `y`, `z`). -/
structure Vector3d where
  x : ℝ
  y : ℝ
  z : ℝ

/-- Embedding of `geometry.Matrix2x2` (row-major entries `_matrix[r][c]`). -/
structure Matrix2x2 where
  m00 : ℝ
  m01 : ℝ
  m10 : ℝ
  m11 : ℝ

/-- Embedding of `geometry.Matrix3x3` (row-major entries `_matrix[r][c]`). -/
structure Matrix3x3 where
  m00 : ℝ
  m01 : ℝ
  m02 : ℝ
  m10 : ℝ
  m11 : ℝ
  m12 : ℝ
  m20 : ℝ
  m21 : ℝ
  m22 : ℝ

/-- `geometry.approx_equals` on two floats:
`a - threshold <= b <= a + threshold`. -/
def approx_equals (a b threshold : ℝ) : Prop :=
  a - threshold ≤ b ∧ b ≤ a + threshold

/-- `Matrix2x2.__det__`: `ad - bc`. -/
def Matrix2x2.det (m : Matrix2x2) : ℝ :=
  m.m00 * m.m11 - m.m01 * m.m10

/-- `Matrix2x2._multiply_by_vector`.  Translated verbatim from the source,
including the second row reading `vector[1]` for both terms. -/
def Matrix2x2.multiply_by_vector (m : Matrix2x2) (v : Vector2d) : Vector2d :=
  { x := m.m00 * v.x + m.m01 * v.y
    y := m.m10 * v.y + m.m11 * v.y }

/-- `Matrix2x2._multiply_by_matrix` (standard row-by-column product). -/
def Matrix2x2.multiply_by_matrix (m other : Matrix2x2) : Matrix2x2 :=
  { m00 := m.m00 * other.m00 + m.m01 * other.m10
    m01 := m.m00 * other.m01 + m.m01 * other.m11
    m10 := m.m10 * other.m00 + m.m11 * other.m10
    m11 := m.m10 * other.m01 + m.m11 * other.m11 }

/-- `Matrix2x2._multiply_by_scalar` (left scalar multiplication). -/
def Matrix2x2.multiply_by_scalar (m : Matrix2x2) (c : ℝ) : Matrix2x2 :=
  { m00 := c * m.m00
    m01 := c * m.m01
    m10 := c * m.m10
    m11 := c * m.m11 }

/-- `Matrix2x2.__inverse__`:
`(1 / det(self)) * Matrix2x2((a, -b), (-c, d))`, translated verbatim
(the source does not swap the diagonal entries of the adjugate).
The source raises `ZeroDivisionError` when the determinant is zero; here
that case is never evaluated. -/
noncomputable def Matrix2x2.inverse (m : Matrix2x2) : Matrix2x2 :=
  Matrix2x2.multiply_by_scalar
    { m00 := m.m00, m01 := -m.m01, m10 := -m.m10, m11 := m.m11 }
    (1 / m.det)

/-- `Matrix2x2.__approx_equals__`: all four entries within the threshold. -/
def Matrix2x2.approx_eq (m other : Matrix2x2) (threshold : ℝ) : Prop :=
  approx_equals m.m00 other.m00 threshold ∧
  approx_equals m.m01 other.m01 threshold ∧
  approx_equals m.m10 other.m10 threshold ∧
  approx_equals m.m11 other.m11 threshold

/-- The 2x2 multiplicative identity matrix. -/
def identityMatrix2x2 : Matrix2x2 :=
  { m00 := 1, m01 := 0, m10 := 0, m11 := 1 }

/-- `Matrix3x3.__det__` (rule of Sarrus, verbatim). -/
def Matrix3x3.det (m : Matrix3x3) : ℝ :=
  m.m00 * m.m11 * m.m22
    + m.m01 * m.m12 * m.m20
    + m.m02 * m.m10 * m.m21
    - m.m02 * m.m11 * m.m20
    - m.m00 * m.m12 * m.m21
    - m.m01 * m.m10 * m.m22

/-- `Matrix3x3._multiply_by_vector` (standard row-by-column product). -/
def Matrix3x3.multiply_by_vector (m : Matrix3x3) (v : Vector3d) : Vector3d :=
  { x := m.m00 * v.x + m.m01 * v.y + m.m02 * v.z
    y := m.m10 * v.x + m.m11 * v.y + m.m12 * v.z
    z := m.m20 * v.x + m.m21 * v.y + m.m22 * v.z }

/-- `Matrix3x3._multiply_by_matrix` (standard row-by-column product). -/
def Matrix3x3.multiply_by_matrix (m other : Matrix3x3) : Matrix3x3 :=
  { m00 := m.m00 * other.m00 + m.m01 * other.m10 + m.m02 * other.m20
    m01 := m.m00 * other.m01 + m.m01 * other.m11 + m.m02 * other.m21
    m02 := m.m00 * other.m02 + m.m01 * other.m12 + m.m02 * other.m22
    m10 := m.m10 * other.m00 + m.m11 * other.m10 + m.m12 * other.m20
    m11 := m.m10 * other.m01 + m.m11 * other.m11 + m.m12 * other.m21
    m12 := m.m10 * other.m02 + m.m11 * other.m12 + m.m12 * other.m22
    m20 := m.m20 * other.m00 + m.m21 * other.m10 + m.m22 * other.m20
    m21 := m.m20 * other.m01 + m.m21 * other.m11 + m.m22 * other.m21
    m22 := m.m20 * other.m02 + m.m21 * other.m12 + m.m22 * other.m22 }

/-- `Matrix3x3._multiply_by_scalar` (left scalar multiplication). -/
def Matrix3x3.multiply_by_scalar (m : Matrix3x3) (c : ℝ) : Matrix3x3 :=
  { m00 := c * m.m00, m01 := c * m.m01, m02 := c * m.m02
    m10 := c * m.m10, m11 := c * m.m11, m12 := c * m.m12
    m20 := c * m.m20, m21 := c * m.m21, m22 := c * m.m22 }

/-- `Matrix3x3.__transpose__`. -/
def Matrix3x3.transpose (m : Matrix3x3) : Matrix3x3 :=
  { m00 := m.m00, m01 := m.m10, m02 := m.m20
    m10 := m.m01, m11 := m.m11, m12 := m.m21
    m20 := m.m02, m21 := m.m12, m22 := m.m22 }

/-- `Matrix3x3.__inverse__`: `(1 / det) * (cofactor matrix) ** "T"`,
translated verbatim.  The source raises `ZeroDivisionError` when the
determinant is zero; here that case is never evaluated. -/
noncomputable def Matrix3x3.inverse (m : Matrix3x3) : Matrix3x3 :=
  Matrix3x3.transpose
    (Matrix3x3.multiply_by_scalar
      { m00 := m.m11 * m.m22 - m.m12 * m.m21
        m01 := -(m.m10 * m.m22 - m.m12 * m.m20)
        m02 := m.m10 * m.m21 - m.m11 * m.m20
        m10 := -(m.m01 * m.m22 - m.m02 * m.m21)
        m11 := m.m00 * m.m22 - m.m02 * m.m20
        m12 := -(m.m00 * m.m21 - m.m01 * m.m20)
        m20 := m.m01 * m.m12 - m.m02 * m.m11
        m21 := -(m.m00 * m.m12 - m.m02 * m.m10)
        m22 := m.m00 * m.m11 - m.m01 * m.m10 }
      (1 / m.det))

/-- The 3x3 multiplicative identity matrix
(the matrix built by `AffineTransformation.__init__`). -/
def identityMatrix3x3 : Matrix3x3 :=
  { m00 := 1, m01 := 0, m02 := 0
    m10 := 0, m11 := 1, m12 := 0
    m20 := 0, m21 := 0, m22 := 1 }

/-- `Matrix3x3.__approx_equals__`: all nine entries within the threshold. -/
def Matrix3x3.approx_eq (m other : Matrix3x3) (threshold : ℝ) : Prop :=
  approx_equals m.m00 other.m00 threshold ∧
  approx_equals m.m01 other.m01 threshold ∧
  approx_equals m.m02 other.m02 threshold ∧
  approx_equals m.m10 other.m10 threshold ∧
  approx_equals m.m11 other.m11 threshold ∧
  approx_equals m.m12 other.m12 threshold ∧
  approx_equals m.m20 other.m20 threshold ∧
  approx_equals m.m21 other.m21 threshold ∧
  approx_equals m.m22 other.m22 threshold

/-- Embedding of `geometry.AffineTransformation`: a wrapped 3x3 matrix. -/
structure AffineTransformation where
  matrix : Matrix3x3

/-- `AffineTransformation.__init__`: the identity transformation. -/
def AffineTransformation.init : AffineTransformation :=
  { matrix := identityMatrix3x3 }

/-- `AffineTransformation.transform(transformation)`:
`transformation.matrix * self.matrix`. -/
def AffineTransformation.transform (t other : AffineTransformation) :
    AffineTransformation :=
  { matrix := other.matrix.multiply_by_matrix t.matrix }

/-- The default branch of `AffineTransformation.translate` (no directional
modifier, or the default direction `"right-then-up"`):
`Matrix3x3((1,0,x),(0,1,y),(0,0,1)) * self.matrix`.  The directional
branches of the source re-enter `translate` without a direction argument
and therefore land here. -/
noncomputable def AffineTransformation.translate_canonical
    (t : AffineTransformation) (x y : ℝ) : AffineTransformation :=
  { matrix :=
      Matrix3x3.multiply_by_matrix
        { m00 := 1, m01 := 0, m02 := x
          m10 := 0, m11 := 1, m12 := y
          m20 := 0, m21 := 0, m22 := 1 }
        t.matrix }

/-- `AffineTransformation.translate(x, y, direction)`, with the source's
branch conditions verbatim: the first branch tests the strings
`"left-then-up"` and `"<^"` (note `"left-then-forward"`, the long name
declared in `_TranslationDirection`, is tested nowhere and so falls
through to the default branch). -/
noncomputable def AffineTransformation.translate (t : AffineTransformation)
    (x y : ℝ) (direction : String) : AffineTransformation :=
  if direction = "left-then-up" ∨ direction = "<^" then
    t.translate_canonical (-x) y
  else if direction = "left-then-down" ∨ direction = "<v" then
    t.translate_canonical (-x) (-y)
  else if direction = "right-then-down" ∨ direction = ">v" then
    t.translate_canonical x (-y)
  else
    t.translate_canonical x y

/-- The default branch of `AffineTransformation.rotate` (no directional
modifier, or the default direction `"counterclockwise"`):
`Matrix3x3((cos a, -sin a, 0), (sin a, cos a, 0), (0,0,1)) * self.matrix`. -/
noncomputable def AffineTransformation.rotate_canonical
    (t : AffineTransformation) (angle : ℝ) : AffineTransformation :=
  { matrix :=
      Matrix3x3.multiply_by_matrix
        { m00 := Real.cos angle, m01 := -Real.sin angle, m02 := 0
          m10 := Real.sin angle, m11 := Real.cos angle, m12 := 0
          m20 := 0, m21 := 0, m22 := 1 }
        t.matrix }

/-- `AffineTransformation.rotate(angle, direction)`, with the source's
branch condition verbatim: the negating branch tests the strings
`"clockwise"` and `".->"` (even though `_RotationDirection` pairs the
symbol `".->"` with `"counterclockwise"` and `"<-."` with `"clockwise"`). -/
noncomputable def AffineTransformation.rotate (t : AffineTransformation)
    (angle : ℝ) (direction : String) : AffineTransformation :=
  if direction = "clockwise" ∨ direction = ".->" then
    t.rotate_canonical (-angle)
  else
    t.rotate_canonical angle

/-- The default branch of `AffineTransformation.scale` (no directional
modifier, or the default direction `"enlarge"`):
`Matrix3x3((x,0,0),(0,y,0),(0,0,1)) * self.matrix`. -/
noncomputable def AffineTransformation.scale_canonical
    (t : AffineTransformation) (x y : ℝ) : AffineTransformation :=
  { matrix :=
      Matrix3x3.multiply_by_matrix
        { m00 := x, m01 := 0, m02 := 0
          m10 := 0, m11 := y, m12 := 0
          m20 := 0, m21 := 0, m22 := 1 }
        t.matrix }

/-- `AffineTransformation.scale(x, y, direction)`: the `"shrink"` / `"><"`
branch replaces the factors by their reciprocals before building the
matrix. -/
noncomputable def AffineTransformation.scale (t : AffineTransformation)
    (x y : ℝ) (direction : String) : AffineTransformation :=
  if direction = "shrink" ∨ direction = "><" then
    t.scale_canonical (1 / x) (1 / y)
  else
    t.scale_canonical x y

/-- Module-level `geometry.translate(x, y)` (no direction argument):
`AffineTransformation().translate(x, y)`. -/
noncomputable def geometry_translate (x y : ℝ) : AffineTransformation :=
  AffineTransformation.init.translate_canonical x y

/-- Module-level `geometry.rotate(angle)` (no direction argument):
`AffineTransformation().rotate(angle)`. -/
noncomputable def geometry_rotate (angle : ℝ) : AffineTransformation :=
  AffineTransformation.init.rotate_canonical angle

/-- Module-level `geometry.scale(s)` with a single factor:
`AffineTransformation().scale(s)` sets both factors to `s`. -/
noncomputable def geometry_scale (s : ℝ) : AffineTransformation :=
  AffineTransformation.init.scale_canonical s s

/-- `AffineTransformation.__apply_transform_to__` on one `Vector2d`:
promote to homogeneous coordinates `(x, y, 1)`, multiply by the wrapped
matrix, drop the third coordinate. -/
def AffineTransformation.apply_to_vector (t : AffineTransformation)
    (v : Vector2d) : Vector2d :=
  let transformed := t.matrix.multiply_by_vector { x := v.x, y := v.y, z := 1 }
  { x := transformed.x, y := transformed.y }

/-- Homogeneous application of a bare 3x3 matrix to a 2D point
(`(x, y, 1)`-promotion, multiply, drop the third coordinate); used to
state the `R * C * p` composition property of the scene graph. -/
def Matrix3x3.apply_homogeneous (m : Matrix3x3) (v : Vector2d) : Vector2d :=
  let transformed := m.multiply_by_vector { x := v.x, y := v.y, z := 1 }
  { x := transformed.x, y := transformed.y }

/-- Embedding of `shapes.Style` (`fill_color`, `stroke_color`,
`stroke_width`). -/
structure Style where
  fill_color : Option String
  stroke_color : Option String
  stroke_width : Option Int

/-- The default `shapes.Style()`: white fill, black stroke, width 1. -/
def defaultStyle : Style :=
  { fill_color := some "white", stroke_color := some "black",
    stroke_width := some 1 }

/-- Embedding of `shapes.Shape`: an ordered vertex list (each
`shapes.Vertex` wraps one `Vector2d`) plus a transform-invariant style.
`Line` is the case of two vertices, `Polygon` of `n`, and `Rect` of the
four vertices derived from origin and extent. -/
structure Shape where
  vertices : List Vector2d
  style : Style

/-- `shapes.Shape.__from_vectors__(vectors)`: copy the shape, then take
exactly `len(self._vertices)` points from the supplied iterator.  When the
iterator holds fewer points, the `next(vectors)` call raises
`StopIteration` (modelled as `none`); any surplus points are simply never
consumed. -/
def Shape.from_vectors (s : Shape) (vectors : List Vector2d) :
    Option Shape :=
  if s.vertices.length ≤ vectors.length then
    some { s with vertices := vectors.take s.vertices.length }
  else
    none

/-- `geometry.Vector2d.__from_vectors__(vectors)`: `next(vectors)` —
the first supplied point, `StopIteration` (`none`) on an empty supply. -/
def Vector2d.from_vectors (_v : Vector2d) (vectors : List Vector2d) :
    Option Vector2d :=
  vectors.head?

/-- `AffineTransformation.__apply_transform_to__` on a `Shape`: map every
vertex through `apply_to_vector` and reassemble via `__from_vectors__`
(the mapped supply has exactly the right length, so reassembly cannot
fail and keeps the style). -/
def AffineTransformation.apply_to_shape (t : AffineTransformation)
    (s : Shape) : Shape :=
  { s with vertices := s.vertices.map t.apply_to_vector }

/-- Embedding of `component.Component`: a name, a local transformation,
an insertion-ordered shape dict and an insertion-ordered child dict
(Python dicts iterate in insertion order, hence association lists). -/
inductive Component where
  | mk (name : String) (transformation : AffineTransformation)
       (shapes : List (String × Shape)) (children : List (String × Component))

/-- The `transformation` field of a `Component`. -/
def Component.transformation : Component → AffineTransformation
  | .mk _ t _ _ => t

/-- The `_shapes` dict of a `Component`, as an ordered association list. -/
def Component.shapes : Component → List (String × Shape)
  | .mk _ _ s _ => s

/-- The `_children` dict of a `Component`, as an ordered association
list. -/
def Component.children : Component → List (String × Component)
  | .mk _ _ _ c => c

/-- `Component.shapes_in_world_coordinates()`: yield every owned shape
transformed by this node's transformation, then every shape yielded by
each child's own `shapes_in_world_coordinates()` transformed by this
node's transformation again. -/
def Component.shapes_in_world_coordinates : Component → List Shape
  | .mk _ tr shapes children =>
      shapes.map (fun s => tr.apply_to_shape s.2) ++
      (children.attach.map (fun c =>
        (Component.shapes_in_world_coordinates c.1.2).map
          (fun sh => tr.apply_to_shape sh))).flatten
decreasing_by
  obtain ⟨⟨nm, comp⟩, hmem⟩ := c
  have h1 := List.sizeOf_lt_of_mem hmem
  simp at h1 ⊢
  omega

/-- Embedding of `calculation.Odometry`. -/
structure Odometry where
  translation_x : ℝ
  translation_y : ℝ
  rotation : ℝ

/-- `calculation._LARGE_VALUE = sys.float_info.max`, the largest double:
`(2^53 - 1) * 2^971`. -/
def LARGE_VALUE : ℝ := (2 ^ 53 - 1) * 2 ^ 971

/-- `calculation.calculate_next_odometry`, translated statement by
statement.  The two float divisions of the source raise
`ZeroDivisionError` when their denominator is zero, modelled as `none`:
`wheel_base / sin(steering_angle)` (taken only when the steering angle is
nonzero) and `speed * Δt / turning_radius`. -/
noncomputable def calculate_next_odometry (last_odometry : Odometry)
    (time_elapsed_since_last_odometry_measurement speed wheel_base
      steering_angle : ℝ) : Option Odometry :=
  if steering_angle ≠ 0 ∧ Real.sin steering_angle = 0 then
    none
  else
    let turning_radius :=
      if steering_angle ≠ 0 then wheel_base / Real.sin steering_angle
      else LARGE_VALUE
    if turning_radius = 0 then
      none
    else
      let change_in_rotation :=
        speed * time_elapsed_since_last_odometry_measurement / turning_radius
      let change_in_position_relative_to_robot : Vector2d :=
        { x := turning_radius * (1 - Real.cos change_in_rotation)
          y := turning_radius * Real.sin change_in_rotation }
      let change_in_position :=
        (geometry_rotate last_odometry.rotation).apply_to_vector
          change_in_position_relative_to_robot
      some
        { translation_x := last_odometry.translation_x + change_in_position.x
          translation_y := last_odometry.translation_y + change_in_position.y
          rotation := last_odometry.rotation + change_in_rotation }

/-- The closed form of spec section 4.5, written from the spec's words:
turning radius `R = wheel_base / sin(steering_angle)`, `Δheading =
speed * Δt / R`, in-frame position delta `(R * (1 - cos Δheading),
R * sin Δheading)` rotated counterclockwise by the previous heading and
added to the previous translation, new heading = previous heading +
`Δheading`. -/
noncomputable def spec_next_odometry (last_odometry : Odometry)
    (dt speed wheel_base steering_angle : ℝ) : Odometry :=
  let turning_radius := wheel_base / Real.sin steering_angle
  let dheading := speed * dt / turning_radius
  let dx := turning_radius * (1 - Real.cos dheading)
  let dy := turning_radius * Real.sin dheading
  let h := last_odometry.rotation
  { translation_x :=
      last_odometry.translation_x + (Real.cos h * dx - Real.sin h * dy)
    translation_y :=
      last_odometry.translation_y + (Real.sin h * dx + Real.cos h * dy)
    rotation := last_odometry.rotation + dheading }

/-- The standard row-by-column 2x2 matrix-vector product, written from the
words of spec section 4.1 (to be compared with the source's
`Matrix2x2._multiply_by_vector`). -/
def spec_matrix2x2_multiply_by_vector (m : Matrix2x2) (v : Vector2d) :
    Vector2d :=
  { x := m.m00 * v.x + m.m01 * v.y
    y := m.m10 * v.x + m.m11 * v.y }

/-- Embedding of `SimulationParameters` (robot measurements inlined). -/
structure SimulationParameters where
  wheel_base : ℝ
  track_width : ℝ
  wheel_width : ℝ
  wheel_diameter : ℝ
  min_robot_speed : ℝ
  max_robot_speed : ℝ
  default_robot_speed : ℝ
  min_robot_steering_angle : ℝ
  max_robot_steering_angle : ℝ
  min_robot_turning_speed : ℝ
  max_robot_turning_speed : ℝ
  default_robot_turning_speed : ℝ

/-- The default `SimulationParameters()` values. -/
noncomputable def defaultParameters : SimulationParameters :=
  { wheel_base := 0.2
    track_width := 0.2
    wheel_width := 0.03
    wheel_diameter := 0.06
    min_robot_speed := -0.4
    max_robot_speed := 0.4
    default_robot_speed := 0.4
    min_robot_steering_angle := -Real.pi / 4
    max_robot_steering_angle := Real.pi / 4
    min_robot_turning_speed := -60 * Real.pi / 180
    max_robot_turning_speed := 60 * Real.pi / 180
    default_robot_turning_speed := 60 * Real.pi / 180 }

/-- The mutable state of a `Simulation` object, with the `Robot` child's
fields that the simulation reads or writes inlined:
`robot_steering_angle` is `Robot._steering_angle`, `robot_translation` /
`robot_rotation` are `Robot._translation` / `Robot._rotation`,
`robot_transformation` is the robot `Component`'s local transformation
and `front_wheel_rotation` mirrors the front axel linkage's wheel
rotation (always kept equal to the steering angle by
`Robot._update_steering_angle`). -/
structure SimulationState where
  parameters : SimulationParameters
  robot_speed : ℝ
  robot_turning_speed : ℝ
  odometry : Odometry
  robot_steering_angle : ℝ
  robot_translation : Vector2d
  robot_rotation : ℝ
  robot_transformation : AffineTransformation
  front_wheel_rotation : ℝ

/-- The two strict-bound error conditions `_BelowLowerBound` /
`_AboveUpperBound`, plus `ZeroDivisionError` propagating out of the
kinematic integrator. -/
inductive SimError where
  | belowLowerBound
  | aboveUpperBound
  | zeroDivision

/-- `Simulation.__init__(parameters)`: speed and turning speed start at 0,
odometry starts at translation (0, 0) with rotation pi; the `Robot` child
starts with steering angle 0, translation (0, 0), rotation 0 and the
identity local transformation (`Robot.__init__` never calls
`_update_transformation`). -/
noncomputable def Simulation.init (parameters : SimulationParameters) :
    SimulationState :=
  { parameters := parameters
    robot_speed := 0
    robot_turning_speed := 0
    odometry :=
      { translation_x := 0, translation_y := 0, rotation := Real.pi }
    robot_steering_angle := 0
    robot_translation := { x := 0, y := 0 }
    robot_rotation := 0
    robot_transformation := AffineTransformation.init
    front_wheel_rotation := 0 }

/-- The `robot_speed` property setter: raise `_BelowLowerBound` /
`_AboveUpperBound` outside the configured bounds, store otherwise. -/
noncomputable def SimulationState.robot_speed_setter (st : SimulationState) (speed : ℝ) :
    Except SimError SimulationState :=
  if speed < st.parameters.min_robot_speed then
    .error .belowLowerBound
  else if speed > st.parameters.max_robot_speed then
    .error .aboveUpperBound
  else
    .ok { st with robot_speed := speed }

/-- The `robot_steering_angle` property setter: bounds-check, then store
the angle on the robot (whose `_update_steering_angle` also rotates the
front wheels to the same angle). -/
noncomputable def SimulationState.robot_steering_angle_setter (st : SimulationState)
    (angle : ℝ) : Except SimError SimulationState :=
  if angle < st.parameters.min_robot_steering_angle then
    .error .belowLowerBound
  else if angle > st.parameters.max_robot_steering_angle then
    .error .aboveUpperBound
  else
    .ok { st with robot_steering_angle := angle,
                  front_wheel_rotation := angle }

/-- The `robot_turning_speed` property setter. -/
noncomputable def SimulationState.robot_turning_speed_setter (st : SimulationState)
    (v : ℝ) : Except SimError SimulationState :=
  if v < st.parameters.min_robot_turning_speed then
    .error .belowLowerBound
  else if v > st.parameters.max_robot_turning_speed then
    .error .aboveUpperBound
  else
    .ok { st with robot_turning_speed := v }

/-- `Simulation.set_bounded_robot_speed`: try the strict setter; on
`_BelowLowerBound` assign the configured minimum through the strict
setter again, on `_AboveUpperBound` assign the configured maximum
directly to the private `_robot_speed` field. -/
noncomputable def SimulationState.set_bounded_robot_speed (st : SimulationState)
    (unbounded_speed : ℝ) : Except SimError SimulationState :=
  match st.robot_speed_setter unbounded_speed with
  | .ok st' => .ok st'
  | .error .belowLowerBound =>
      st.robot_speed_setter st.parameters.min_robot_speed
  | .error _ =>
      .ok { st with robot_speed := st.parameters.max_robot_speed }

/-- `Simulation.set_bounded_robot_steering_angle`: try the strict setter;
on a bound error assign the corresponding configured bound through the
strict setter again. -/
noncomputable def SimulationState.set_bounded_robot_steering_angle (st : SimulationState)
    (unbounded_angle : ℝ) : Except SimError SimulationState :=
  match st.robot_steering_angle_setter unbounded_angle with
  | .ok st' => .ok st'
  | .error .belowLowerBound =>
      st.robot_steering_angle_setter st.parameters.min_robot_steering_angle
  | .error _ =>
      st.robot_steering_angle_setter st.parameters.max_robot_steering_angle

/-- `Simulation.set_bounded_robot_turning_speed`: the body assigns the
private field `self._robot_turning_speed` directly instead of going
through the `robot_turning_speed` property setter, so no bounds check
ever runs, the two `except` clauses are unreachable, and the raw value is
stored. -/
def SimulationState.set_bounded_robot_turning_speed (st : SimulationState)
    (unbounded_v : ℝ) : Except SimError SimulationState :=
  .ok { st with robot_turning_speed := unbounded_v }

/-- `Robot._update_transformation`:
`geometry.rotate(self._rotation).translate(self._translation)`. -/
noncomputable def robot_update_transformation (st : SimulationState) :
    SimulationState :=
  let t := (geometry_rotate st.robot_rotation).translate_canonical
    st.robot_translation.x st.robot_translation.y
  { st with robot_transformation := t }

/-- `Simulation.move_forward_in_time(change_in_time)`, translated
statement by statement.  Returns the object state as it stands when the
method returns or when an exception escapes, paired with the outcome:
the negative-time check runs before any mutation; then the steering angle
is ramped with the bounded setter; then the integrator runs; then the new
pose is pushed into the robot's translation, rotation and local
transformation (each of the two property assignments triggers
`Robot._update_transformation`). -/
noncomputable def SimulationState.move_forward_in_time
    (st : SimulationState) (change_in_time : ℝ) :
    SimulationState × Except SimError Unit :=
  if change_in_time < 0 then
    (st, .error .belowLowerBound)
  else
    match st.set_bounded_robot_steering_angle
        (st.robot_steering_angle +
          st.robot_turning_speed * change_in_time) with
    | .error e => (st, .error e)
    | .ok st1 =>
      match calculate_next_odometry st1.odometry change_in_time
          st1.robot_speed st1.parameters.wheel_base
          st1.robot_steering_angle with
      | none => (st1, .error .zeroDivision)
      | some odom =>
        let st2 := { st1 with odometry := odom }
        let st3 := robot_update_transformation
          { st2 with robot_translation :=
              { x := odom.translation_x, y := odom.translation_y } }
        let st4 := robot_update_transformation
          { st3 with robot_rotation := odom.rotation }
        (st4, .ok ())

/-- Concrete scene graph for the spec's worked example: a child
component carrying one single-vertex shape at local (0, 0), with local
transform `translate(1, 0)`. -/
noncomputable def exampleChildComponent : Component :=
  .mk "child" (AffineTransformation.init.translate_canonical 1 0)
    [("shape", { vertices := [{ x := 0, y := 0 }], style := defaultStyle })]
    []

/-- Root of the worked example: transform `scale(2)`, no own shapes, one
child. -/
noncomputable def exampleRootComponent : Component :=
  .mk "root" (AffineTransformation.init.scale_canonical 2 2) []
    [("child", exampleChildComponent)]

/-- C10: a `Simulation` constructed with default parameters starts with
odometry translation (0, 0) and heading pi — not heading 0 — so the
read-only pose accessor of a fresh simulation returns rotation pi and the
vehicle initially faces opposite to the zero-heading frame. -/
theorem C10_initial_heading_is_pi :
    (Simulation.init defaultParameters).odometry =
      { translation_x := 0, translation_y := 0, rotation := Real.pi } ∧
    (Real.pi : ℝ) ≠ 0 :=
  ⟨rfl, Real.pi_ne_zero⟩

/-- C2, evaluated at the failing input `M = [[1, 2], [3, 4]]`,
`v = (1, 2)`: the source's `Matrix2x2._multiply_by_vector` returns
(5, 14) because its second row reads `vector[1]` twice, while the
standard row-by-column product required by the claim is (5, 11). -/
theorem C2_multiply_by_vector_wrong_at_failing_input :
    Matrix2x2.multiply_by_vector ⟨1, 2, 3, 4⟩ ⟨1, 2⟩ = ⟨5, 14⟩ ∧
    spec_matrix2x2_multiply_by_vector ⟨1, 2, 3, 4⟩ ⟨1, 2⟩ = ⟨5, 11⟩ ∧
    Matrix2x2.multiply_by_vector ⟨1, 2, 3, 4⟩ ⟨1, 2⟩ ≠
      spec_matrix2x2_multiply_by_vector ⟨1, 2, 3, 4⟩ ⟨1, 2⟩ := by
  refine ⟨?_, ?_, ?_⟩ <;>
    norm_num [Matrix2x2.multiply_by_vector,
      spec_matrix2x2_multiply_by_vector, Vector2d.mk.injEq]

/-- C3, evaluated at the failing input `M = [[1, 2], [3, 4]]` (the matrix
used by the repository's own 2x2 inverse test): `M * (M ** -1)` is
`[[5/2, -3], [9/2, -5]]`, not within 1e-10 of the identity, because
`Matrix2x2.__inverse__` fails to swap the diagonal entries of the
adjugate. -/
theorem C3_2x2_inverse_wrong_at_failing_input :
    Matrix2x2.multiply_by_matrix ⟨1, 2, 3, 4⟩
        (Matrix2x2.inverse ⟨1, 2, 3, 4⟩) =
      ⟨5 / 2, -3, 9 / 2, -5⟩ ∧
    ¬ Matrix2x2.approx_eq
        (Matrix2x2.multiply_by_matrix ⟨1, 2, 3, 4⟩
          (Matrix2x2.inverse ⟨1, 2, 3, 4⟩))
        identityMatrix2x2 (1 / 10 ^ 10) := by
  constructor
  · norm_num [Matrix2x2.multiply_by_matrix, Matrix2x2.inverse,
      Matrix2x2.multiply_by_scalar, Matrix2x2.det, Matrix2x2.mk.injEq]
  · norm_num [Matrix2x2.multiply_by_matrix, Matrix2x2.inverse,
      Matrix2x2.multiply_by_scalar, Matrix2x2.det, Matrix2x2.approx_eq,
      approx_equals, identityMatrix2x2]

/-- C6, evaluated at the failing input: on a fresh default simulation,
`set_bounded_robot_turning_speed(max + 10)` stores `max + 10` unclamped
(the method assigns the private `_robot_turning_speed` field directly, so
its bounds-checking `except` clauses never run), contradicting the
claimed clamp to the configured maximum. -/
theorem C6_turning_speed_setter_does_not_clamp :
    (Simulation.init defaultParameters).set_bounded_robot_turning_speed
        (defaultParameters.max_robot_turning_speed + 10) =
      .ok { Simulation.init defaultParameters with
              robot_turning_speed :=
                defaultParameters.max_robot_turning_speed + 10 } ∧
    defaultParameters.max_robot_turning_speed + 10 ≠
      defaultParameters.max_robot_turning_speed := by
  refine ⟨rfl, fun h => ?_⟩
  have h10 : (10 : ℝ) = 0 := by linarith
  norm_num at h10

/-- C8: `move_forward_in_time(change_in_time)` with a negative time step
fails with the below-lower-bound error, and the failure happens before
any mutation, so the whole simulation state (odometry pose, speed,
steering angle, turning speed, robot node transform) is exactly the state
before the call. -/
theorem C8_negative_time_step_fails_without_mutation
    (st : SimulationState) (dt : ℝ) (h : dt < 0) :
    st.move_forward_in_time dt = (st, .error .belowLowerBound) := by
  unfold SimulationState.move_forward_in_time
  rw [if_pos h]

/-- Witness for C8 at the concrete input: a fresh default simulation and
`change_in_time = -1`. -/
theorem C8_witness :
    ((-1 : ℝ) < 0) ∧
    (Simulation.init defaultParameters).move_forward_in_time (-1) =
      (Simulation.init defaultParameters, .error .belowLowerBound) :=
  ⟨by norm_num,
   C8_negative_time_step_fails_without_mutation _ _ (by norm_num)⟩

/-- C9 counterexample: a `Line` (two vertices) is happily reconstructed
from a three-point supply — `__from_vectors__` only consumes
`len(self._vertices)` points and never notices surplus ones — so
reconstruction does not fail although the supplied length (3) differs
from the `toPoints()` length (2). -/
theorem C9_counterexample_longer_supply_succeeds :
    (Shape.mk [⟨0, 0⟩, ⟨1, 1⟩] defaultStyle).vertices.length = 2 ∧
    ([⟨0, 0⟩, ⟨0, 0⟩, ⟨0, 0⟩] : List Vector2d).length = 3 ∧
    ((Shape.mk [⟨0, 0⟩, ⟨1, 1⟩] defaultStyle).from_vectors
        [⟨0, 0⟩, ⟨0, 0⟩, ⟨0, 0⟩]).isSome = true := by
  refine ⟨rfl, rfl, ?_⟩
  simp [Shape.from_vectors]

/-- C9 as amended: reconstruction from a point sequence fails exactly
when the supplied sequence is shorter than the instance's own vertex
sequence; a longer supply succeeds, silently ignoring the surplus points
(and the `Point`/`Vector2d` variant likewise fails exactly on an empty
supply). -/
theorem C9_amended_from_vectors_fails_iff_shorter :
    (∀ (s : Shape) (vs : List Vector2d),
        (s.from_vectors vs).isSome ↔ s.vertices.length ≤ vs.length) ∧
    (∀ (v : Vector2d) (vs : List Vector2d),
        (v.from_vectors vs).isSome ↔ vs ≠ []) := by
  constructor
  · intro s vs
    by_cases h : s.vertices.length ≤ vs.length <;>
      simp [Shape.from_vectors, h]
  · intro v vs
    cases vs <;> simp [Vector2d.from_vectors]

/-- C7 counterexample: the long direction name `"left-then-forward"`
(declared in `_TranslationDirection`) is tested nowhere in
`AffineTransformation.translate` — the implementation checks
`"left-then-up"` instead — so `translate(1, 2, "left-then-forward")`
builds the unnegated matrix (entry [0][2] = 1) rather than the claimed
`translate(-1, 2)` (entry [0][2] = -1). -/
theorem C7_counterexample_left_then_forward_not_negated :
    (AffineTransformation.init.translate 1 2 "left-then-forward").matrix.m02
      = 1 ∧
    (AffineTransformation.init.translate_canonical (-1) 2).matrix.m02
      = -1 ∧
    AffineTransformation.init.translate 1 2 "left-then-forward" ≠
      AffineTransformation.init.translate_canonical (-1) 2 := by
  refine ⟨?_, ?_, fun h => ?_⟩
  · simp [AffineTransformation.translate,
      AffineTransformation.translate_canonical, Matrix3x3.multiply_by_matrix,
      identityMatrix3x3, AffineTransformation.init]
  · simp [AffineTransformation.translate_canonical,
      Matrix3x3.multiply_by_matrix, identityMatrix3x3,
      AffineTransformation.init]
  · have h2 := congrArg (fun t : AffineTransformation => t.matrix.m02) h
    simp [AffineTransformation.translate,
      AffineTransformation.translate_canonical, Matrix3x3.multiply_by_matrix,
      identityMatrix3x3, AffineTransformation.init] at h2
    norm_num at h2

/-- C7 as amended: the directional variants are exactly equivalent (every
matrix entry equal) to the explicit signed canonical calls that the
implementation actually performs: `"left-then-down"`/`"<v"` negates both
components and `"right-then-down"`/`">v"` negates only y as claimed, but
only the symbol `"<^"` (not its declared long name `"left-then-forward"`,
which is silently ignored) negates only x; `"clockwise"` and the symbol
`".->"` (which `_RotationDirection` declares as the counterclockwise
symbol) both negate the angle, while `"counterclockwise"` and `"<-."`
leave it unchanged; `"shrink"`/`"><"` replaces both scale factors by
their reciprocals. -/
theorem C7_amended_directional_variants (t : AffineTransformation)
    (x y a sx sy : ℝ) :
    t.translate x y "left-then-down" = t.translate_canonical (-x) (-y) ∧
    t.translate x y "<v" = t.translate_canonical (-x) (-y) ∧
    t.translate x y "<^" = t.translate_canonical (-x) y ∧
    t.translate x y "left-then-forward" = t.translate_canonical x y ∧
    t.translate x y "right-then-down" = t.translate_canonical x (-y) ∧
    t.translate x y ">v" = t.translate_canonical x (-y) ∧
    t.translate x y "right-then-forward" = t.translate_canonical x y ∧
    t.translate x y ">^" = t.translate_canonical x y ∧
    t.rotate a "clockwise" = t.rotate_canonical (-a) ∧
    t.rotate a ".->" = t.rotate_canonical (-a) ∧
    t.rotate a "counterclockwise" = t.rotate_canonical a ∧
    t.rotate a "<-." = t.rotate_canonical a ∧
    t.scale sx sy "shrink" = t.scale_canonical (1 / sx) (1 / sy) ∧
    t.scale sx sy "><" = t.scale_canonical (1 / sx) (1 / sy) ∧
    t.scale sx sy "enlarge" = t.scale_canonical sx sy ∧
    t.scale sx sy "<>" = t.scale_canonical sx sy := by
  refine ⟨?_, ?_, ?_, ?_, ?_, ?_, ?_, ?_, ?_, ?_, ?_, ?_, ?_, ?_, ?_, ?_⟩ <;>
    simp [AffineTransformation.translate, AffineTransformation.rotate,
      AffineTransformation.scale]

/-- C1: whenever the divisions of the closed form are defined
(`sin(steering_angle)` nonzero and a nonzero wheel base, so neither float
division of the source raises), `calculate_next_odometry` returns exactly
the pose of the spec's closed form: turning radius `w / sin(α)`,
`Δheading = speed * Δt / R`, in-frame delta `(R(1 - cos Δheading),
R sin Δheading)` rotated counterclockwise by the previous heading and
added to the previous translation, new heading = previous heading +
`Δheading`. -/
theorem C1_integrator_equals_spec_closed_form (last : Odometry)
    (dt s w α : ℝ) (hsin : Real.sin α ≠ 0) (hw : w ≠ 0) :
    calculate_next_odometry last dt s w α =
      some (spec_next_odometry last dt s w α) := by
  have hα : α ≠ 0 := fun h => hsin (h ▸ Real.sin_zero)
  have hR : w / Real.sin α ≠ 0 := div_ne_zero hw hsin
  simp only [calculate_next_odometry, spec_next_odometry, hsin, hα, hR,
    ne_eq, not_false_eq_true, and_false, if_false, if_true, ite_true,
    ite_false, false_and, and_true, Option.some.injEq]
  simp only [geometry_rotate, AffineTransformation.rotate_canonical,
    AffineTransformation.init, AffineTransformation.apply_to_vector,
    Matrix3x3.multiply_by_matrix, Matrix3x3.multiply_by_vector,
    identityMatrix3x3, Odometry.mk.injEq]
  refine ⟨by ring, by ring, by ring⟩

/-- Witness for C1 at the claim's concrete input: pose (0, 0, 0), speed 1,
wheel base 1, steering angle pi/2, Δt = 1 yields translation
(1 - cos 1, sin 1) and heading 1. -/
theorem C1_witness :
    Real.sin (Real.pi / 2) ≠ 0 ∧ (1 : ℝ) ≠ 0 ∧
    calculate_next_odometry ⟨0, 0, 0⟩ 1 1 1 (Real.pi / 2) =
      some ⟨1 - Real.cos 1, Real.sin 1, 1⟩ := by
  have hs : Real.sin (Real.pi / 2) ≠ 0 := by
    rw [Real.sin_pi_div_two]; norm_num
  refine ⟨hs, by norm_num, ?_⟩
  rw [C1_integrator_equals_spec_closed_form ⟨0, 0, 0⟩ 1 1 1 (Real.pi / 2) hs
    (by norm_num)]
  simp [spec_next_odometry, Real.sin_pi_div_two, Real.cos_zero,
    Real.sin_zero, Odometry.mk.injEq]

/-- C4 counterexample: at pose (0, 0, 0) with speed 1, wheel base 1,
Δt = 1 and steering angle exactly 0, the step does succeed but the new
heading is `1 * 1 / _LARGE_VALUE`, which is not zero: the sentinel
turning radius is a large *finite* value, so the heading is not exactly
unchanged as claimed. -/
theorem C4_counterexample_heading_changes :
    Option.map Odometry.rotation (calculate_next_odometry ⟨0, 0, 0⟩ 1 1 1 0)
      = some (1 * 1 / LARGE_VALUE) ∧
    (1 * 1 / LARGE_VALUE : ℝ) ≠ 0 := by
  have hL : (0 : ℝ) < LARGE_VALUE := by rw [LARGE_VALUE]; positivity
  constructor
  · simp [calculate_next_odometry, ne_of_gt hL]
  · exact div_ne_zero (by norm_num) (ne_of_gt hL)

/-- C4 as amended: a step with steering angle exactly 0 raises no
division error (the sentinel `_LARGE_VALUE` replaces the turning radius,
so both divisions are defined) and returns the pose obtained from the
sentinel arc: new heading = previous heading + `s * Δt / _LARGE_VALUE`
(unchanged only when `s * Δt = 0`), and translation = previous
translation plus the rotation by the *previous* heading of the in-frame
delta `(_LARGE_VALUE * (1 - cos ε), _LARGE_VALUE * sin ε)` with
`ε = s * Δt / _LARGE_VALUE`; that delta approximates straight-line motion
`(0, s * Δt)`: its first component lies in
`[0, (s * Δt)^2 / (2 * _LARGE_VALUE)]` and its second is at most
`|s * Δt|` in magnitude. -/
theorem C4_amended_zero_steering_sentinel_arc (last : Odometry)
    (dt s w : ℝ) :
    calculate_next_odometry last dt s w 0 =
      some { translation_x := last.translation_x +
               (Real.cos last.rotation *
                  (LARGE_VALUE * (1 - Real.cos (s * dt / LARGE_VALUE))) -
                Real.sin last.rotation *
                  (LARGE_VALUE * Real.sin (s * dt / LARGE_VALUE)))
             translation_y := last.translation_y +
               (Real.sin last.rotation *
                  (LARGE_VALUE * (1 - Real.cos (s * dt / LARGE_VALUE))) +
                Real.cos last.rotation *
                  (LARGE_VALUE * Real.sin (s * dt / LARGE_VALUE)))
             rotation := last.rotation + s * dt / LARGE_VALUE } ∧
    0 ≤ LARGE_VALUE * (1 - Real.cos (s * dt / LARGE_VALUE)) ∧
    LARGE_VALUE * (1 - Real.cos (s * dt / LARGE_VALUE)) ≤
      (s * dt) ^ 2 / (2 * LARGE_VALUE) ∧
    |LARGE_VALUE * Real.sin (s * dt / LARGE_VALUE)| ≤ |s * dt| := by
  have hL : (0 : ℝ) < LARGE_VALUE := by rw [LARGE_VALUE]; positivity
  have hL0 : LARGE_VALUE ≠ 0 := ne_of_gt hL
  refine ⟨?_, ?_, ?_, ?_⟩
  · simp only [calculate_next_odometry, ne_eq, not_true_eq_false,
      false_and, if_false, ite_false, ite_true, not_false_eq_true, hL0,
      geometry_rotate, AffineTransformation.rotate_canonical,
      AffineTransformation.init, AffineTransformation.apply_to_vector,
      Matrix3x3.multiply_by_matrix, Matrix3x3.multiply_by_vector,
      identityMatrix3x3, Option.some.injEq, Odometry.mk.injEq]
    refine ⟨by ring, by ring, by ring⟩
  · have hc := Real.cos_le_one (s * dt / LARGE_VALUE)
    nlinarith
  · have hc := Real.one_sub_sq_div_two_le_cos
      (x := s * dt / LARGE_VALUE)
    have h1 : 1 - Real.cos (s * dt / LARGE_VALUE) ≤
        (s * dt / LARGE_VALUE) ^ 2 / 2 := by linarith
    have h2 : LARGE_VALUE * (1 - Real.cos (s * dt / LARGE_VALUE)) ≤
        LARGE_VALUE * ((s * dt / LARGE_VALUE) ^ 2 / 2) :=
      mul_le_mul_of_nonneg_left h1 (le_of_lt hL)
    have h3 : LARGE_VALUE * ((s * dt / LARGE_VALUE) ^ 2 / 2) =
        (s * dt) ^ 2 / (2 * LARGE_VALUE) := by
      field_simp
      ring
    linarith
  · rw [abs_mul]
    have h1 : |Real.sin (s * dt / LARGE_VALUE)| ≤ |s * dt / LARGE_VALUE| :=
      Real.abs_sin_le_abs
    have h2 : |LARGE_VALUE| * |Real.sin (s * dt / LARGE_VALUE)| ≤
        |LARGE_VALUE| * |s * dt / LARGE_VALUE| :=
      mul_le_mul_of_nonneg_left h1 (abs_nonneg _)
    have h3 : |LARGE_VALUE| * |s * dt / LARGE_VALUE| = |s * dt| := by
      rw [abs_div, abs_of_pos hL]
      field_simp
    linarith

/-- C5: for any component tree, a shape owned by a child directly under
the root is yielded by `shapes_in_world_coordinates` transformed first by
the child's transform, then by the root's (root-to-leaf outward,
leaf-relative coordinates innermost); provided the child transform's
bottom matrix row is the affine row (0, 0, 1) — true of every transform
built from translate/rotate/scale — that yielded shape has each vertex
`p` mapped to the homogeneous product `R * C * p`. -/
theorem C5_world_shapes_compose_root_to_leaf
    (root child : Component) (cname sname : String) (s : Shape)
    (hc : (cname, child) ∈ root.children)
    (hs : (sname, s) ∈ child.shapes)
    (h20 : child.transformation.matrix.m20 = 0)
    (h21 : child.transformation.matrix.m21 = 0)
    (h22 : child.transformation.matrix.m22 = 1) :
    root.transformation.apply_to_shape
        (child.transformation.apply_to_shape s) ∈
      root.shapes_in_world_coordinates ∧
    root.transformation.apply_to_shape
        (child.transformation.apply_to_shape s) =
      { s with vertices := s.vertices.map (fun p =>
          (root.transformation.matrix.multiply_by_matrix
            child.transformation.matrix).apply_homogeneous p) } := by
  obtain ⟨rn, rtr, rsh, rch⟩ := root
  obtain ⟨cn, ctr, csh, cch⟩ := child
  simp only [Component.children, Component.shapes,
    Component.transformation] at hc hs h20 h21 h22 ⊢
  constructor
  · rw [Component.shapes_in_world_coordinates]
    apply List.mem_append_right
    rw [List.mem_flatten]
    refine ⟨(Component.shapes_in_world_coordinates
        (Component.mk cn ctr csh cch)).map
          (fun sh => rtr.apply_to_shape sh), ?_, ?_⟩
    · exact List.mem_map_of_mem _
        (List.mem_attach rch ⟨(cname, Component.mk cn ctr csh cch), hc⟩)
    · apply List.mem_map_of_mem
      rw [Component.shapes_in_world_coordinates]
      apply List.mem_append_left
      exact List.mem_map.mpr ⟨(sname, s), hs, rfl⟩
  · simp only [AffineTransformation.apply_to_shape, List.map_map,
      Shape.mk.injEq, and_true]
    apply List.map_congr_left
    intro p _
    simp only [Function.comp, AffineTransformation.apply_to_vector,
      Matrix3x3.apply_homogeneous, Matrix3x3.multiply_by_vector,
      Matrix3x3.multiply_by_matrix, Vector2d.mk.injEq]
    rw [h20, h21, h22]
    refine ⟨by ring, by ring⟩

/-- Witness for C5 at the spec's worked example: local vertex (0, 0)
under child transform `translate(1, 0)` and root transform `scale(2)` is
yielded in world coordinates as the vertex (2, 0). -/
theorem C5_witness :
    Shape.mk [{ x := 2, y := 0 }] defaultStyle ∈
      exampleRootComponent.shapes_in_world_coordinates := by
  have h := C5_world_shapes_compose_root_to_leaf exampleRootComponent
    exampleChildComponent "child" "shape"
    { vertices := [{ x := 0, y := 0 }], style := defaultStyle }
    (by simp [exampleRootComponent, Component.children])
    (by simp [exampleChildComponent, Component.shapes])
    (by norm_num [exampleChildComponent, Component.transformation,
      AffineTransformation.translate_canonical, AffineTransformation.init,
      Matrix3x3.multiply_by_matrix, identityMatrix3x3])
    (by norm_num [exampleChildComponent, Component.transformation,
      AffineTransformation.translate_canonical, AffineTransformation.init,
      Matrix3x3.multiply_by_matrix, identityMatrix3x3])
    (by norm_num [exampleChildComponent, Component.transformation,
      AffineTransformation.translate_canonical, AffineTransformation.init,
      Matrix3x3.multiply_by_matrix, identityMatrix3x3])
  have heq : exampleRootComponent.transformation.apply_to_shape
      (exampleChildComponent.transformation.apply_to_shape
        { vertices := [{ x := 0, y := 0 }], style := defaultStyle }) =
      Shape.mk [{ x := 2, y := 0 }] defaultStyle := by
    norm_num [exampleRootComponent, exampleChildComponent,
      Component.transformation, AffineTransformation.apply_to_shape,
      AffineTransformation.apply_to_vector,
      AffineTransformation.translate_canonical,
      AffineTransformation.scale_canonical, AffineTransformation.init,
      Matrix3x3.multiply_by_matrix, Matrix3x3.multiply_by_vector,
      identityMatrix3x3, Vector2d.mk.injEq, Shape.mk.injEq]
  exact heq ▸ h.1
